import Mathlib

/-!
Verification of the session and authorization core of the CLINIC-SYSTEM
identity service, shallowly embedded from the Python sources:

* `infrastructure/security/jwt_handler.py`      — `JWTHandler` (token codec)
* `infrastructure/security/token_blacklist.py`  — `TokenBlacklist` (revocation store)
* `infrastructure/api/dependencies.py`          — `get_current_user` and the
  role gates (`get_current_rrhh_user`, `get_current_superuser`)
* `application/use_cases/login_user.py`         — `LoginUserUseCase.execute`
* `application/use_cases/validate_token.py`     — `ValidateTokenUseCase.execute`
* `infrastructure/api/routes.py`                — the `/auth/refresh` handler

Conventions of the embedding: the wall clock (`datetime.utcnow()`) is an
explicit `now : Int` parameter (seconds); persistence collaborators
(user/role repositories, the password context) are records of functions;
Python functions that raise domain errors become `Except`-valued functions;
`jwt.encode`/`jwt.decode` are modelled symbolically — a token is either a
signed payload carrying the key and algorithm it was signed with, or an
unparseable string, and decoding checks key, algorithm and the `exp` claim
exactly as the `jose` library does (expired iff `exp < now`).
-/

namespace ClinicAuth

/-- The JWT payload dictionary. The Python code builds payloads as dicts;
the fields below are exactly the keys ever written by
`JWTHandler.create_access_token` / `create_refresh_token`, each `Option`al
because `payload.get(key)` yields `None` when the key is absent.
The Python dict key `"type"` is the field `type`. -/
structure Payload where
  sub : Option String
  username : Option String
  email : Option String
  is_superuser : Option Bool
  role : Option String
  roles : Option (List String)
  type : Option String
  exp : Option Int
  iat : Option Int
deriving DecidableEq

/-- The payload with no keys at all: an empty Python dict, which is falsy.
`verify_token` and `ValidateTokenUseCase.execute` test `if not payload`,
which is true both for `None` and for `{}`. -/
def Payload.empty : Payload :=
  { sub := none, username := none, email := none, is_superuser := none,
    role := none, roles := none, type := none, exp := none, iat := none }

/-- `if not payload` on a present dict: truthy iff some key is set. -/
def Payload.falsy (p : Payload) : Bool :=
  p = Payload.empty

/-- A wire token: either a well-formed three-part JWT (payload plus the
symmetric key and algorithm under which its signature verifies), or a
string that fails parsing or signature verification structurally.
A token signed under a different key or algorithm than the verifier's
models a tampered/unsigned token. -/
inductive Token where
  | signed (payload : Payload) (key : String) (alg : String)
  | malformed (raw : String)
deriving DecidableEq

/-- `JWTHandler.__init__` configuration (jwt_handler.py:11-21). -/
structure JWTHandler where
  secret_key : String
  algorithm : String
  access_token_expire_minutes : Int
  refresh_token_expire_days : Int
deriving DecidableEq

namespace JWTHandler

/-- `JWTHandler.create_access_token` (jwt_handler.py:23-60).
`roles or [role]` in Python falls back to `[role]` when `roles` is
`None` **or** the empty list (both falsy). -/
def create_access_token (h : JWTHandler) (now : Int) (user_id username email : String)
    (is_superuser : Bool) (role : String) (roles : Option (List String)) : Token :=
  let expire := now + h.access_token_expire_minutes * 60
  Token.signed
    { sub := some user_id
      username := some username
      email := some email
      is_superuser := some is_superuser
      role := some role
      roles := some (match roles with
        | none => [role]
        | some [] => [role]
        | some rs => rs)
      type := some "access"
      exp := some expire
      iat := some now }
    h.secret_key h.algorithm

/-- `JWTHandler.create_refresh_token` (jwt_handler.py:62-81).
Lifetime is in days; only `sub`, `type`, `exp`, `iat` are set. -/
def create_refresh_token (h : JWTHandler) (now : Int) (user_id : String) : Token :=
  let expire := now + h.refresh_token_expire_days * 86400
  Token.signed
    { sub := some user_id, username := none, email := none, is_superuser := none,
      role := none, roles := none, type := some "refresh",
      exp := some expire, iat := some now }
    h.secret_key h.algorithm

/-- `JWTHandler.decode_token` (jwt_handler.py:83-101): `jwt.decode` under
the handler's key and algorithm; every `JWTError` (bad signature, wrong
algorithm, garbage input, expired `exp` claim) is caught and collapsed to
`None`. `jose` treats a token as expired iff `exp < now` and skips the
check when the claim is absent. -/
def decode_token (h : JWTHandler) (now : Int) (token : Token) : Option Payload :=
  match token with
  | .malformed _ => none
  | .signed payload key alg =>
    if key = h.secret_key ∧ alg = h.algorithm then
      match payload.exp with
      | some e => if e < now then none else some payload
      | none => some payload
    else none

/-- `JWTHandler.verify_token` (jwt_handler.py:103-122): decode, reject a
falsy payload (`if not payload`), then reject when
`payload.get("type") != token_type`. -/
def verify_token (h : JWTHandler) (now : Int) (token : Token) (token_type : String) :
    Option Payload :=
  match h.decode_token now token with
  | none => none
  | some payload =>
    if payload.falsy then none
    else if payload.type = some token_type then some payload
    else none

end JWTHandler

/-- `TokenBlacklist` (token_blacklist.py:7-91): a mutex-guarded in-memory
set of token strings. The mutex serialises every operation, so the
sequential model below is the state after any linearisation of completed
calls; the set is a duplicate-free list. The `_auto_cleanup` hook run by
`add_token` performs no eviction, so it does not appear in the state.
Polymorphic in the element type: the store itself treats tokens as opaque
values. -/
structure TokenBlacklist (α : Type) where
  blacklist : List α
deriving DecidableEq

namespace TokenBlacklist

/-- `TokenBlacklist.__init__` (token_blacklist.py:15-20): empty set. -/
def init {α : Type} : TokenBlacklist α := ⟨[]⟩

/-- `TokenBlacklist.add_token` (token_blacklist.py:22-31): set insertion. -/
def add_token {α : Type} [DecidableEq α] (s : TokenBlacklist α) (t : α) : TokenBlacklist α :=
  if t ∈ s.blacklist then s else ⟨t :: s.blacklist⟩

/-- `TokenBlacklist.is_blacklisted` (token_blacklist.py:33-44). -/
def is_blacklisted {α : Type} [DecidableEq α] (s : TokenBlacklist α) (t : α) : Bool :=
  decide (t ∈ s.blacklist)

/-- `TokenBlacklist.remove_token` (token_blacklist.py:46-60): returns
whether the token was present, together with the updated store. -/
def remove_token {α : Type} [DecidableEq α] (s : TokenBlacklist α) (t : α) :
    Bool × TokenBlacklist α :=
  if t ∈ s.blacklist then (true, ⟨s.blacklist.erase t⟩) else (false, s)

/-- `TokenBlacklist.clear` (token_blacklist.py:62-65). -/
def clear {α : Type} (_ : TokenBlacklist α) : TokenBlacklist α := ⟨[]⟩

/-- `TokenBlacklist.size` (token_blacklist.py:67-75). -/
def size {α : Type} (s : TokenBlacklist α) : Nat := s.blacklist.length

end TokenBlacklist

/-- The authentication/authorization error taxonomy raised by the FastAPI
dependencies (dependencies.py): 401 "Token has been revoked",
401 "Invalid or expired token", 403 on the role gates. -/
inductive AuthError where
  | Revoked
  | InvalidOrExpired
  | Forbidden
deriving DecidableEq

/-- `get_current_user` (dependencies.py:96-134): reject if the presented
bearer token is blacklisted, else reject if
`verify_token(token, "access")` yields no payload, else return the
payload. The `if not payload` test is payload-is-`None` here because
`verify_token` never returns a falsy dict. -/
def get_current_user (h : JWTHandler) (now : Int) (blacklist : TokenBlacklist Token)
    (token : Token) : Except AuthError Payload :=
  if blacklist.is_blacklisted token then
    .error .Revoked
  else
    match h.verify_token now token "access" with
    | none => .error .InvalidOrExpired
    | some payload => .ok payload

/-- `get_current_superuser` (dependencies.py:137-158):
`current_user.get("is_superuser", False)` must be truthy. -/
def get_current_superuser (h : JWTHandler) (now : Int) (blacklist : TokenBlacklist Token)
    (token : Token) : Except AuthError Payload :=
  match get_current_user h now blacklist token with
  | .error e => .error e
  | .ok current_user =>
    if current_user.is_superuser.getD false then .ok current_user
    else .error .Forbidden

/-- `get_current_rrhh_user` (dependencies.py:161-182):
`current_user.get("role") != "RRHH"` is Forbidden — strict equality on
the primary-role claim, never a lookup in the `roles` list. -/
def get_current_rrhh_user (h : JWTHandler) (now : Int) (blacklist : TokenBlacklist Token)
    (token : Token) : Except AuthError Payload :=
  match get_current_user h now blacklist token with
  | .error e => .error e
  | .ok current_user =>
    if current_user.role = some "RRHH" then .ok current_user
    else .error .Forbidden

/-- An assigned role, with the fields role resolution reads
(domain/entities/role.py: `code`, `is_active`). -/
structure Role where
  code : String
  is_active : Bool
deriving DecidableEq

/-- Primary-role resolution, the block that appears verbatim both in
`LoginUserUseCase.execute` (login_user.py:63-73) and in the
`/auth/refresh` handler (routes.py:267-277):
superuser → `"RRHH"`; else if the raw assignment list is non-empty,
the first active role's code, or `"USER"` when no assignment is active;
else `"USER"`. -/
def primary_role_of (is_superuser : Bool) (user_roles : List Role) : String :=
  if is_superuser then "RRHH"
  else if user_roles.isEmpty then "USER"
  else
    match user_roles.filter (fun r => r.is_active) with
    | [] => "USER"
    | r :: _ => r.code

/-- Role-code list resolution (login_user.py:75-84 and routes.py:279-288):
codes of the active assignments, then append `"RRHH"` for a superuser
when missing, then fall back to `["USER"]` when still empty. -/
def role_codes_of (is_superuser : Bool) (user_roles : List Role) : List String :=
  let role_codes := (user_roles.filter (fun r => r.is_active)).map (fun r => r.code)
  let role_codes :=
    if is_superuser = true ∧ "RRHH" ∉ role_codes then role_codes ++ ["RRHH"]
    else role_codes
  if role_codes.isEmpty then ["USER"] else role_codes

/-- The user entity fields that the login and refresh flows read
(domain/entities/user.py). -/
structure User where
  id : String
  username : String
  email : String
  hashed_password : String
  is_active : Bool
  is_superuser : Bool
deriving DecidableEq

/-- The persistence and password collaborators of
`LoginUserUseCase` (login_user.py:14-24), as pure lookups:
`user_repository.get_by_email` / `get_by_username`,
`password_context.verify(plain, hash)`, and
`role_repository.get_user_roles`. -/
structure LoginDeps where
  get_by_email : String → Option User
  get_by_username : String → Option User
  verify_password : String → String → Bool
  get_user_roles : String → List Role

/-- The `ValueError` messages `LoginUserUseCase.execute` raises, mapped to
401 by the route (routes.py:204-208). -/
inductive LoginError where
  | InvalidCredentials
  | AccountInactive
deriving DecidableEq

/-- The claim-relevant projection of `TokenResponse`
(application/dto/user_response.py): the token pair, the bearer marker,
the expiry in seconds, and the resolved primary role and role codes
echoed in the user payload. -/
structure TokenResponse where
  access_token : Token
  refresh_token : Token
  token_type : String
  expires_in : Int
  user_role : String
  user_roles : List String
deriving DecidableEq

/-- User lookup at the top of `LoginUserUseCase.execute`
(login_user.py:39-42): by email first, by username only when the email
lookup found nothing. -/
def login_lookup (deps : LoginDeps) (identifier : String) : Option User :=
  match deps.get_by_email identifier with
  | some user => some user
  | none => deps.get_by_username identifier

/-- `LoginUserUseCase.execute` (login_user.py:26-125). The synchronous
last-login write (login_user.py:56-58) sits between the password check
and role resolution and carries no information the claims mention, so it
is not part of the state here; its failure would abort the whole login
before any token is issued. -/
def login_execute (deps : LoginDeps) (h : JWTHandler) (now : Int)
    (identifier password : String) : Except LoginError TokenResponse :=
  match login_lookup deps identifier with
  | none => .error .InvalidCredentials
  | some user =>
    if user.is_active = false then .error .AccountInactive
    else if deps.verify_password password user.hashed_password = false then
      .error .InvalidCredentials
    else
      let user_roles := deps.get_user_roles user.id
      let primary_role := primary_role_of user.is_superuser user_roles
      let role_codes := role_codes_of user.is_superuser user_roles
      let access_token :=
        h.create_access_token now user.id user.username user.email
          user.is_superuser primary_role (some role_codes)
      let refresh_tok := h.create_refresh_token now user.id
      .ok { access_token := access_token, refresh_token := refresh_tok,
            token_type := "bearer",
            expires_in := h.access_token_expire_minutes * 60,
            user_role := primary_role, user_roles := role_codes }

/-- The 401 reasons of the `/auth/refresh` handler (routes.py:242-262). -/
inductive RefreshError where
  | InvalidOrExpiredRefresh
  | UserNotFound
  | UserInactive
deriving DecidableEq

/-- The collaborators of the `/auth/refresh` handler:
`user_repository.get_by_id` receives `payload.get("sub")` as-is (an
absent claim reaches the repository as `None` and yields no user —
get_by_id also returns `None` itself for an unparseable id), and
`role_repository.get_user_roles`. -/
structure RefreshDeps where
  get_by_id : Option String → Option User
  get_user_roles : String → List Role

/-- The `/auth/refresh` route handler (routes.py:227-334). Its FastAPI
dependency list names the JWT handler and the repositories but **no**
blacklist; the `_blacklist` parameter below is the process's revocation
store at request time, which the handler never reads. -/
def refresh_token_endpoint (deps : RefreshDeps) (h : JWTHandler) (now : Int)
    (_blacklist : TokenBlacklist Token) (refresh_tok : Token) :
    Except RefreshError TokenResponse :=
  match h.verify_token now refresh_tok "refresh" with
  | none => .error .InvalidOrExpiredRefresh
  | some payload =>
    match deps.get_by_id payload.sub with
    | none => .error .UserNotFound
    | some user =>
      if user.is_active = false then .error .UserInactive
      else
        let user_roles := deps.get_user_roles user.id
        let primary_role := primary_role_of user.is_superuser user_roles
        let role_codes := role_codes_of user.is_superuser user_roles
        let access_token :=
          h.create_access_token now user.id user.username user.email
            user.is_superuser primary_role (some role_codes)
        let new_refresh := h.create_refresh_token now user.id
        .ok { access_token := access_token, refresh_token := new_refresh,
              token_type := "bearer",
              expires_in := h.access_token_expire_minutes * 60,
              user_role := primary_role, user_roles := role_codes }

/-- Hex-digit test used by the UUID model. -/
def isHexDigit (c : Char) : Bool :=
  c.isDigit || (('a' ≤ c && c ≤ 'f') || ('A' ≤ c && c ≤ 'F'))

/-- Brace-character test (the characters Python strips with
`.strip(braces)` in `uuid.UUID`). -/
def isBraceChar (c : Char) : Bool :=
  c = Char.ofNat 123 || c = Char.ofNat 125

/-- `str.replace("urn:", "")`: one left-to-right pass removing each
non-overlapping occurrence. -/
def removeUrnMarker : List Char → List Char
  | 'u' :: 'r' :: 'n' :: ':' :: cs => removeUrnMarker cs
  | c :: cs => c :: removeUrnMarker cs
  | [] => []

/-- `str.replace("uuid:", "")`: one left-to-right pass removing each
non-overlapping occurrence. -/
def removeUuidMarker : List Char → List Char
  | 'u' :: 'u' :: 'i' :: 'd' :: ':' :: cs => removeUuidMarker cs
  | c :: cs => c :: removeUuidMarker cs
  | [] => []

/-- The standard-library constructor `uuid.UUID(hex=s)` called at
validate_token.py:51, modelled on its CPython source: remove the
`urn:` and `uuid:` markers, strip surrounding braces, drop hyphens,
then require exactly 32 hexadecimal digits; yields the normalised
lowercase hex form, or `none` where CPython raises `ValueError`. -/
def pyUUID (s : String) : Option String :=
  let hex := removeUuidMarker (removeUrnMarker s.toList)
  let hex := ((hex.dropWhile isBraceChar).reverse.dropWhile isBraceChar).reverse
  let hex := hex.filter (fun c => c ≠ '-')
  if hex.length = 32 && hex.all isHexDigit then
    some (String.mk (hex.map Char.toLower))
  else none

/-- The claim-relevant projection of `TokenValidationResponse`
(application/dto/user_response.py): `user_id` holds the normalised UUID
when validation succeeds. -/
structure TokenValidationResponse where
  valid : Bool
  user_id : Option String
  username : Option String
  email : Option String
  is_superuser : Option Bool
  message : String
deriving DecidableEq

/-- A validation failure: `valid=False` with only a message, all user
fields absent (validate_token.py:30-33, 43-46, 59-62). -/
def invalidResponse (message : String) : TokenValidationResponse :=
  { valid := false, user_id := none, username := none, email := none,
    is_superuser := none, message := message }

/-- `ValidateTokenUseCase.execute` (validate_token.py:15-62): decode with
`decode_token` (never `verify_token`, so the token kind is not checked);
`if not payload` covers `None` and the falsy empty dict; `if not user_id`
covers an absent and an empty `sub`; `UUID(user_id)` raising
`ValueError` on a non-UUID subject is swallowed by the surrounding
`except Exception` into a `valid=False` response. -/
def validate_execute (h : JWTHandler) (now : Int) (token : Token) :
    TokenValidationResponse :=
  match h.decode_token now token with
  | none => invalidResponse "Invalid or expired token"
  | some payload =>
    if payload.falsy then invalidResponse "Invalid or expired token"
    else
      match payload.sub with
      | none => invalidResponse "Invalid token payload"
      | some user_id =>
        if user_id = "" then invalidResponse "Invalid token payload"
        else
          match pyUUID user_id with
          | none =>
            invalidResponse "Token validation failed: badly formed hexadecimal UUID string"
          | some uuid =>
            { valid := true, user_id := some uuid,
              username := payload.username, email := payload.email,
              is_superuser := some (payload.is_superuser.getD false),
              message := "Token is valid" }

deriving instance DecidableEq for Except

/-! ### Helper lemmas and concrete fixtures -/

theorem role_codes_of_ne_nil (su : Bool) (rs : List Role) : role_codes_of su rs ≠ [] := by
  have key : ∀ l : List String, (if l.isEmpty = true then ["USER"] else l) ≠ [] := by
    intro l
    split
    · simp
    · next h => simpa [List.isEmpty_iff] using h
  simp only [role_codes_of]
  exact key _

theorem primary_role_mem (su : Bool) (rs : List Role) :
    primary_role_of su rs ∈ role_codes_of su rs := by
  simp only [primary_role_of, role_codes_of]
  cases su with
  | false =>
    have hcond :
        ¬(false = true ∧ "RRHH" ∉ (rs.filter fun r => r.is_active).map fun r => r.code) := by
      simp
    rw [if_neg hcond, if_neg (by simp : ¬(false = true))]
    cases hfe : rs.filter (fun r => r.is_active) with
    | nil =>
      cases rs with
      | nil => simp [hfe]
      | cons a as => simp [hfe]
    | cons r rest =>
      have hne : rs.isEmpty = false := by
        cases rs with
        | nil => simp at hfe
        | cons a as => rfl
      simp [hfe, hne]
  | true =>
    by_cases hmem : "RRHH" ∈ (rs.filter fun r => r.is_active).map fun r => r.code
    · have hcond :
          ¬(true = true ∧ "RRHH" ∉ (rs.filter fun r => r.is_active).map fun r => r.code) := by
        simp [hmem]
      rw [if_neg hcond, if_pos rfl]
      have hne : ((rs.filter fun r => r.is_active).map fun r => r.code).isEmpty = false := by
        cases hh : (rs.filter fun r => r.is_active).map fun r => r.code with
        | nil => rw [hh] at hmem; simp at hmem
        | cons x xs => rfl
      simp [hne, hmem]
    · have hcond :
          true = true ∧ "RRHH" ∉ (rs.filter fun r => r.is_active).map fun r => r.code :=
        ⟨rfl, hmem⟩
      rw [if_pos hcond, if_pos rfl]
      simp

/-- Concrete handler configuration for witnesses: the default
`JWTHandler` settings of the service. -/
def hFix : JWTHandler :=
  { secret_key := "secret", algorithm := "HS256",
    access_token_expire_minutes := 30, refresh_token_expire_days := 7 }

/-- A concrete user id in canonical UUID form. -/
def uuidFix : String := "11111111-1111-1111-1111-111111111111"

/-- A concrete access token issued at time 0 for a MEDICO user. -/
def accessFix : Token :=
  hFix.create_access_token 0 uuidFix "jdoe" "jdoe@clinic.test" false "MEDICO"
    (some ["MEDICO"])

/-- The payload carried by `accessFix`. -/
def accessPayloadFix : Payload :=
  { sub := some uuidFix, username := some "jdoe", email := some "jdoe@clinic.test",
    is_superuser := some false, role := some "MEDICO", roles := some ["MEDICO"],
    type := some "access", exp := some 1800, iat := some 0 }

/-- A concrete refresh token issued at time 0. -/
def refreshFix : Token := hFix.create_refresh_token 0 uuidFix

/-- An access token whose primary role is MEDICO while the role-code
list also carries RRHH as a secondary role. -/
def accessSecondaryRrhhFix : Token :=
  hFix.create_access_token 0 uuidFix "jdoe" "jdoe@clinic.test" false "MEDICO"
    (some ["MEDICO", "RRHH"])

/-- The payload carried by `accessSecondaryRrhhFix`. -/
def accessSecondaryRrhhPayloadFix : Payload :=
  { sub := some uuidFix, username := some "jdoe", email := some "jdoe@clinic.test",
    is_superuser := some false, role := some "MEDICO", roles := some ["MEDICO", "RRHH"],
    type := some "access", exp := some 1800, iat := some 0 }

/-- A concrete user behind `uuidFix`. -/
def userFix : User :=
  { id := uuidFix, username := "jdoe", email := "jdoe@clinic.test",
    hashed_password := "hash1", is_active := true, is_superuser := false }

/-- Concrete login collaborators: `jdoe` found by username only, password
verifying only against the stored hash, one active MEDICO role. -/
def loginDepsFix : LoginDeps :=
  { get_by_email := fun _ => none
    get_by_username := fun id => if id = "jdoe" then some userFix else none
    verify_password := fun plain hash => plain == "Correct1!" && hash == "hash1"
    get_user_roles := fun id => if id = uuidFix then [⟨"MEDICO", true⟩] else [] }

/-- Concrete refresh collaborators for the same user. -/
def refreshDepsFix : RefreshDeps :=
  { get_by_id := fun id => if id = some uuidFix then some userFix else none
    get_user_roles := fun id => if id = uuidFix then [⟨"MEDICO", true⟩] else [] }

/-! ### Claim theorems -/

/-- C1: for every presented bearer token, `get_current_user` consults the
revocation store before the codec: a blacklisted token is rejected as
`Revoked` whatever its cryptographic state; otherwise a token that
`verify_token(·, "access")` rejects yields `InvalidOrExpired`; otherwise
the decoded claims are returned unchanged. -/
theorem C1_gate_checks_revocation_before_codec (h : JWTHandler) (now : Int)
    (bl : TokenBlacklist Token) (t : Token) :
    (bl.is_blacklisted t = true → get_current_user h now bl t = .error .Revoked) ∧
    (bl.is_blacklisted t = false → h.verify_token now t "access" = none →
      get_current_user h now bl t = .error .InvalidOrExpired) ∧
    (∀ p, bl.is_blacklisted t = false → h.verify_token now t "access" = some p →
      get_current_user h now bl t = .ok p) := by
  refine ⟨fun hb => ?_, fun hb hv => ?_, fun p hb hv => ?_⟩
  · simp [get_current_user, hb]
  · simp [get_current_user, hb, hv]
  · simp [get_current_user, hb, hv]

/-- C1 witness: a blacklisted garbage token is `Revoked`, an unknown
garbage token is `InvalidOrExpired`, and a fresh valid access token
passes with its payload. -/
theorem C1_witness :
    get_current_user hFix 0 (TokenBlacklist.init.add_token (Token.malformed "junk"))
      (Token.malformed "junk") = .error .Revoked ∧
    get_current_user hFix 0 TokenBlacklist.init (Token.malformed "junk") =
      .error .InvalidOrExpired ∧
    get_current_user hFix 0 TokenBlacklist.init accessFix = .ok accessPayloadFix :=
  ⟨(C1_gate_checks_revocation_before_codec hFix 0
      (TokenBlacklist.init.add_token (Token.malformed "junk")) (Token.malformed "junk")).1
      (by decide),
   (C1_gate_checks_revocation_before_codec hFix 0 TokenBlacklist.init
      (Token.malformed "junk")).2.1 (by decide) rfl,
   (C1_gate_checks_revocation_before_codec hFix 0 TokenBlacklist.init accessFix).2.2
      accessPayloadFix (by decide) (by decide)⟩

/-- C6: role resolution always produces a non-empty role-code list, and
the primary role is always one of the role codes — including the
superuser-with-no-roles case, which yields primary `"RRHH"` in
`["RRHH"]`. -/
theorem C6_role_resolution_invariant (is_superuser : Bool) (user_roles : List Role) :
    role_codes_of is_superuser user_roles ≠ [] ∧
    primary_role_of is_superuser user_roles ∈ role_codes_of is_superuser user_roles ∧
    (is_superuser = true → user_roles = [] →
      role_codes_of is_superuser user_roles = ["RRHH"] ∧
      primary_role_of is_superuser user_roles = "RRHH") := by
  refine ⟨role_codes_of_ne_nil _ _, primary_role_mem _ _, fun hs hr => ?_⟩
  subst hs; subst hr
  exact ⟨rfl, rfl⟩

/-- C6 witness: the invariant at a superuser with no assigned roles. -/
theorem C6_witness :
    role_codes_of true [] ≠ [] ∧
    primary_role_of true [] ∈ role_codes_of true [] ∧
    (true = true → ([] : List Role) = [] →
      role_codes_of true [] = ["RRHH"] ∧ primary_role_of true [] = "RRHH") :=
  C6_role_resolution_invariant true []

/-- The primary-role rule as the specification words it: superuser means
`"RRHH"`; otherwise the first element of the active-filtered assignment
sequence; otherwise `"USER"`. Stated separately from `primary_role_of`
(the source's inline block) so the two can be compared. -/
def spec_primary_role (isSuperuser : Bool) (assignedRoles : List Role) : String :=
  if isSuperuser then "RRHH"
  else
    match assignedRoles.filter (fun r => r.is_active) with
    | [] => "USER"
    | r :: _ => r.code

/-- C7: the code's role resolution agrees with the spec's algorithm on
every input, and the three example resolutions of the spec hold. -/
theorem C7_role_resolution_algorithm :
    (∀ (is_superuser : Bool) (user_roles : List Role),
      primary_role_of is_superuser user_roles = spec_primary_role is_superuser user_roles) ∧
    (primary_role_of true [] = "RRHH" ∧ role_codes_of true [] = ["RRHH"]) ∧
    (primary_role_of false [⟨"MEDICO", true⟩] = "MEDICO" ∧
      role_codes_of false [⟨"MEDICO", true⟩] = ["MEDICO"]) ∧
    (primary_role_of false [] = "USER" ∧ role_codes_of false [] = ["USER"]) := by
  refine ⟨fun is_superuser user_roles => ?_, ⟨rfl, rfl⟩, ⟨rfl, rfl⟩, ⟨rfl, rfl⟩⟩
  simp only [primary_role_of, spec_primary_role]
  cases is_superuser with
  | true => simp
  | false =>
    cases user_roles with
    | nil => simp
    | cons a as => simp

/-- C8: the revocation store behaves as a set of token strings: fresh
size 0; add makes the token present with size 1; remove deletes it and
reports presence; removing an absent token reports false and leaves the
store unchanged; clear empties the store. -/
theorem C8_revocation_store_set_behavior (t : String) (s : TokenBlacklist String) :
    (TokenBlacklist.init : TokenBlacklist String).size = 0 ∧
    ((TokenBlacklist.init : TokenBlacklist String).add_token t).size = 1 ∧
    ((TokenBlacklist.init : TokenBlacklist String).add_token t).is_blacklisted t = true ∧
    (((TokenBlacklist.init : TokenBlacklist String).add_token t).remove_token t).1 = true ∧
    (((TokenBlacklist.init : TokenBlacklist String).add_token t).remove_token t).2.size = 0 ∧
    (((TokenBlacklist.init : TokenBlacklist String).add_token t).remove_token
      t).2.is_blacklisted t = false ∧
    (s.is_blacklisted t = false → s.remove_token t = (false, s)) ∧
    s.clear.size = 0 := by
  refine ⟨rfl, ?_, ?_, ?_, ?_, ?_, fun habs => ?_, rfl⟩
  · simp [TokenBlacklist.init, TokenBlacklist.add_token, TokenBlacklist.size]
  · simp [TokenBlacklist.init, TokenBlacklist.add_token, TokenBlacklist.is_blacklisted]
  · simp [TokenBlacklist.init, TokenBlacklist.add_token, TokenBlacklist.remove_token]
  · simp [TokenBlacklist.init, TokenBlacklist.add_token, TokenBlacklist.remove_token,
      TokenBlacklist.size]
  · simp [TokenBlacklist.init, TokenBlacklist.add_token, TokenBlacklist.remove_token,
      TokenBlacklist.is_blacklisted]
  · have hmem : t ∉ s.blacklist := by
      simpa [TokenBlacklist.is_blacklisted] using habs
    simp [TokenBlacklist.remove_token, hmem]

/-- C8 witness: the life cycle at the literal token `"t1"` and the
absent-removal case on a store holding only `"t2"`. -/
theorem C8_witness :
    (TokenBlacklist.init : TokenBlacklist String).size = 0 ∧
    ((TokenBlacklist.init : TokenBlacklist String).add_token "t1").size = 1 ∧
    ((TokenBlacklist.init : TokenBlacklist String).add_token "t1").is_blacklisted "t1" = true ∧
    (((TokenBlacklist.init : TokenBlacklist String).add_token "t1").remove_token "t1").1 = true ∧
    (((TokenBlacklist.init : TokenBlacklist String).add_token "t1").remove_token
      "t1").2.size = 0 ∧
    (((TokenBlacklist.init : TokenBlacklist String).add_token "t1").remove_token
      "t1").2.is_blacklisted "t1" = false ∧
    ((TokenBlacklist.init.add_token "t2").is_blacklisted "t1" = false →
      (TokenBlacklist.init.add_token "t2").remove_token "t1" =
        (false, TokenBlacklist.init.add_token "t2")) ∧
    (TokenBlacklist.init.add_token "t2").clear.size = 0 :=
  C8_revocation_store_set_behavior "t1" (TokenBlacklist.init.add_token "t2")

/-- C2: the codec is fail-soft and total: decoding a malformed token, a
token signed under a different key or algorithm, or an expired token
yields `none`; `verify_token` yields `none` whenever the decoded `type`
claim differs from the expected kind, and succeeds only on a decodable
payload of exactly the expected kind — so a refresh token is rejected
where an access token is expected and vice versa, and every failure mode
collapses to the same `none`. -/
theorem C2_decode_verify_fail_soft (h : JWTHandler) (now : Int) :
    (∀ raw, h.decode_token now (Token.malformed raw) = none) ∧
    (∀ p key alg, key ≠ h.secret_key ∨ alg ≠ h.algorithm →
      h.decode_token now (Token.signed p key alg) = none) ∧
    (∀ p key alg e, p.exp = some e → e < now →
      h.decode_token now (Token.signed p key alg) = none) ∧
    (∀ t token_type p, h.decode_token now t = some p → p.type ≠ some token_type →
      h.verify_token now t token_type = none) ∧
    (∀ t token_type p, h.verify_token now t token_type = some p →
      h.decode_token now t = some p ∧ p.type = some token_type) ∧
    (∀ iss uid, h.verify_token now (h.create_refresh_token iss uid) "access" = none) ∧
    (∀ iss uid username email su role roles,
      h.verify_token now (h.create_access_token iss uid username email su role roles)
        "refresh" = none) := by
  refine ⟨fun raw => rfl, ?_, ?_, ?_, ?_, ?_, ?_⟩
  · intro p key alg hne
    simp only [JWTHandler.decode_token]
    split
    · next hc =>
        rcases hne with hne | hne
        · exact absurd hc.1 hne
        · exact absurd hc.2 hne
    · rfl
  · intro p key alg e hexp hlt
    simp only [JWTHandler.decode_token]
    split
    · rw [hexp]
      simp [hlt]
    · rfl
  · intro t token_type p hdec hne
    simp only [JWTHandler.verify_token]
    rw [hdec]
    by_cases hf : p.falsy
    · simp [hf]
    · simp [hf, hne]
  · intro t token_type p hv
    simp only [JWTHandler.verify_token] at hv
    cases hdec : h.decode_token now t with
    | none => rw [hdec] at hv; exact absurd hv (by simp)
    | some q =>
      rw [hdec] at hv
      by_cases hf : q.falsy
      · simp [hf] at hv
      · by_cases ht : q.type = some token_type
        · have hq : q = p := by simpa [hf, ht] using hv
          rw [← hq]
          exact ⟨rfl, ht⟩
        · simp [hf, ht] at hv
  · intro iss uid
    simp only [JWTHandler.verify_token, JWTHandler.create_refresh_token,
      JWTHandler.decode_token]
    by_cases hexp : iss + h.refresh_token_expire_days * 86400 < now
    · simp [hexp]
    · simp [hexp, Payload.falsy, Payload.empty]
  · intro iss uid username email su role roles
    simp only [JWTHandler.verify_token, JWTHandler.create_access_token,
      JWTHandler.decode_token]
    by_cases hexp : iss + h.access_token_expire_minutes * 60 < now
    · simp [hexp]
    · simp [hexp, Payload.falsy, Payload.empty]

/-- C2 witness: the failure modes at concrete tokens — garbage, a token
signed under the key `"other"`, an already-expired token, a refresh token
presented as an access token, and an access token presented as a refresh
token — and kind-exactness on the fixture access token. -/
theorem C2_witness :
    hFix.decode_token 0 (Token.malformed "garbage") = none ∧
    hFix.decode_token 0 (Token.signed accessPayloadFix "other" "HS256") = none ∧
    hFix.decode_token 2000 accessFix = none ∧
    hFix.verify_token 0 accessFix "refresh" = none ∧
    hFix.decode_token 0 accessFix = some accessPayloadFix ∧
    accessPayloadFix.type = some "access" ∧
    hFix.verify_token 0 refreshFix "access" = none :=
  ⟨(C2_decode_verify_fail_soft hFix 0).1 "garbage",
   (C2_decode_verify_fail_soft hFix 0).2.1 accessPayloadFix "other" "HS256"
     (Or.inl (by decide)),
   (C2_decode_verify_fail_soft hFix 2000).2.2.1 accessPayloadFix "secret" "HS256" 1800
     rfl (by decide),
   (C2_decode_verify_fail_soft hFix 0).2.2.2.1 accessFix "refresh" accessPayloadFix
     (by decide) (by decide),
   ((C2_decode_verify_fail_soft hFix 0).2.2.2.2.1 accessFix "access" accessPayloadFix
     (by decide)).1,
   ((C2_decode_verify_fail_soft hFix 0).2.2.2.2.1 accessFix "access" accessPayloadFix
     (by decide)).2,
   (C2_decode_verify_fail_soft hFix 0).2.2.2.2.2.1 0 uuidFix⟩

/-- C3: round-trip — decoding an access token freshly issued from
well-formed claims (a positive configured lifetime, a non-empty role
list) under the same handler returns exactly the input subject id,
username, email, superuser flag, primary role and role list. -/
theorem C3_access_token_round_trip (h : JWTHandler) (now : Int)
    (user_id username email : String) (is_superuser : Bool) (role : String)
    (roles : List String) (hm : 0 < h.access_token_expire_minutes) (hr : roles ≠ []) :
    h.decode_token now
        (h.create_access_token now user_id username email is_superuser role (some roles)) =
      some { sub := some user_id, username := some username, email := some email,
             is_superuser := some is_superuser, role := some role, roles := some roles,
             type := some "access",
             exp := some (now + h.access_token_expire_minutes * 60), iat := some now } := by
  cases roles with
  | nil => exact absurd rfl hr
  | cons a as =>
    simp only [JWTHandler.create_access_token, JWTHandler.decode_token]
    have hlt : ¬(now + h.access_token_expire_minutes * 60 < now) := by omega
    simp [hlt]

/-- C3 witness: the round-trip at the fixture claims. -/
theorem C3_witness :
    0 < hFix.access_token_expire_minutes ∧
    hFix.decode_token 0
        (hFix.create_access_token 0 uuidFix "jdoe" "jdoe@clinic.test" false "MEDICO"
          (some ["MEDICO"])) =
      some { sub := some uuidFix, username := some "jdoe",
             email := some "jdoe@clinic.test", is_superuser := some false,
             role := some "MEDICO", roles := some ["MEDICO"], type := some "access",
             exp := some (0 + hFix.access_token_expire_minutes * 60), iat := some 0 } :=
  ⟨by decide,
   C3_access_token_round_trip hFix 0 uuidFix "jdoe" "jdoe@clinic.test" false "MEDICO"
     ["MEDICO"] (by decide) (by decide)⟩

/-- C4: the RRHH gate accepts an authenticated payload iff its primary
`role` claim is exactly `"RRHH"`; in particular a payload whose `roles`
list contains `"RRHH"` while its primary role is different is rejected
as Forbidden. -/
theorem C4_rrhh_gate_strict_primary_role (h : JWTHandler) (now : Int)
    (bl : TokenBlacklist Token) (t : Token) (p : Payload)
    (hu : get_current_user h now bl t = .ok p) :
    (get_current_rrhh_user h now bl t = .ok p ↔ p.role = some "RRHH") ∧
    (p.role ≠ some "RRHH" → get_current_rrhh_user h now bl t = .error .Forbidden) ∧
    (∀ codes, p.roles = some codes → "RRHH" ∈ codes → p.role ≠ some "RRHH" →
      get_current_rrhh_user h now bl t = .error .Forbidden) := by
  by_cases hrole : p.role = some "RRHH"
  · refine ⟨?_, fun hne => absurd hrole hne, fun codes _ _ hne => absurd hrole hne⟩
    simp [get_current_rrhh_user, hu, hrole]
  · refine ⟨?_, fun _ => ?_, fun codes _ _ _ => ?_⟩ <;>
      simp [get_current_rrhh_user, hu, hrole]

/-- C4 witness: the fixture user with primary role MEDICO and secondary
role RRHH is authenticated but rejected by the RRHH gate. -/
theorem C4_witness :
    get_current_user hFix 0 TokenBlacklist.init accessSecondaryRrhhFix =
      .ok accessSecondaryRrhhPayloadFix ∧
    accessSecondaryRrhhPayloadFix.roles = some ["MEDICO", "RRHH"] ∧
    get_current_rrhh_user hFix 0 TokenBlacklist.init accessSecondaryRrhhFix =
      .error .Forbidden :=
  ⟨by decide, rfl,
   (C4_rrhh_gate_strict_primary_role hFix 0 TokenBlacklist.init accessSecondaryRrhhFix
      accessSecondaryRrhhPayloadFix (by decide)).2.2 ["MEDICO", "RRHH"] rfl
      (by decide) (by decide)⟩

/-- C5: login looks the identifier up as an email first (a user found by
email is the one used even when a username lookup would also match),
then as a username; both lookups empty fail with `InvalidCredentials`; a
found-but-inactive user fails with `AccountInactive` before the password
is consulted (the conclusion holds for every `verify_password`
collaborator); a password mismatch fails with `InvalidCredentials` — the
same value as the not-found case; and no failure path returns a token
response. -/
theorem C5_login_failure_paths (deps : LoginDeps) (h : JWTHandler) (now : Int)
    (identifier password : String) :
    (∀ u, deps.get_by_email identifier = some u → login_lookup deps identifier = some u) ∧
    (deps.get_by_email identifier = none → deps.get_by_username identifier = none →
      login_execute deps h now identifier password = .error .InvalidCredentials) ∧
    (∀ u, login_lookup deps identifier = some u → u.is_active = false →
      login_execute deps h now identifier password = .error .AccountInactive) ∧
    (∀ u, login_lookup deps identifier = some u → u.is_active = true →
      deps.verify_password password u.hashed_password = false →
      login_execute deps h now identifier password = .error .InvalidCredentials) ∧
    (∀ e r, login_execute deps h now identifier password = .error e →
      login_execute deps h now identifier password ≠ .ok r) := by
  refine ⟨fun u he => ?_, fun he hu => ?_, fun u hl ha => ?_, fun u hl ha hp => ?_,
    fun e r herr hok => ?_⟩
  · simp [login_lookup, he]
  · simp [login_execute, login_lookup, he, hu]
  · simp [login_execute, hl, ha]
  · simp [login_execute, hl, ha, hp]
  · rw [herr] at hok
    exact Except.noConfusion hok

/-- C5 witness: against the fixture collaborators — an unknown
identifier, an inactive variant of the fixture user, and the right
identifier with the wrong password all fail with the stated errors, and
a user found by email wins the lookup. -/
theorem C5_witness :
    ({ loginDepsFix with
        get_by_email := fun i => if i = "jdoe@clinic.test" then some userFix else none
      : LoginDeps }.get_by_email "jdoe@clinic.test" = some userFix →
      login_lookup
        { loginDepsFix with
          get_by_email := fun i => if i = "jdoe@clinic.test" then some userFix else none }
        "jdoe@clinic.test" = some userFix) ∧
    login_execute loginDepsFix hFix 0 "nobody" "Correct1!" =
      .error .InvalidCredentials ∧
    login_execute
      { loginDepsFix with
        get_by_username := fun i =>
          if i = "jdoe" then some { userFix with is_active := false } else none }
      hFix 0 "jdoe" "Correct1!" = .error .AccountInactive ∧
    login_execute loginDepsFix hFix 0 "jdoe" "Wrong1!" = .error .InvalidCredentials :=
  ⟨fun he =>
    (C5_login_failure_paths
      { loginDepsFix with
        get_by_email := fun i => if i = "jdoe@clinic.test" then some userFix else none }
      hFix 0 "jdoe@clinic.test" "Correct1!").1 userFix he,
   (C5_login_failure_paths loginDepsFix hFix 0 "nobody" "Correct1!").2.1 rfl rfl,
   (C5_login_failure_paths
      { loginDepsFix with
        get_by_username := fun i =>
          if i = "jdoe" then some { userFix with is_active := false } else none }
      hFix 0 "jdoe" "Correct1!").2.2.1 { userFix with is_active := false } (by decide) rfl,
   (C5_login_failure_paths loginDepsFix hFix 0 "jdoe" "Wrong1!").2.2.2.1 userFix
     (by decide) rfl (by decide)⟩

/-- C9: the refresh handler never consults the revocation store — its
outcome is identical under any two store states, adding the presented
token itself to the store changes nothing, and a refresh token that
verifies for an existing active user is accepted even after it (or
anything else) was blacklisted. -/
theorem C9_refresh_ignores_revocation_store (deps : RefreshDeps) (h : JWTHandler)
    (now : Int) (t : Token) (bl bl' : TokenBlacklist Token) :
    refresh_token_endpoint deps h now bl t = refresh_token_endpoint deps h now bl' t ∧
    refresh_token_endpoint deps h now (bl.add_token t) t =
      refresh_token_endpoint deps h now bl t ∧
    (∀ p u, h.verify_token now t "refresh" = some p → deps.get_by_id p.sub = some u →
      u.is_active = true →
      ∃ r, refresh_token_endpoint deps h now (bl.add_token t) t = .ok r) := by
  refine ⟨rfl, rfl, fun p u hv hg ha => ?_⟩
  have hfalse : ¬(true = false) := by simp
  simp only [refresh_token_endpoint, hv, hg, ha, if_neg hfalse]
  exact ⟨_, rfl⟩

/-- C9 witness: the fixture refresh token is accepted with the store
empty, and equally with the very same token blacklisted. -/
theorem C9_witness :
    (∃ r, refresh_token_endpoint refreshDepsFix hFix 0
      (TokenBlacklist.init.add_token refreshFix) refreshFix = .ok r) ∧
    refresh_token_endpoint refreshDepsFix hFix 0
        (TokenBlacklist.init.add_token refreshFix) refreshFix =
      refresh_token_endpoint refreshDepsFix hFix 0 TokenBlacklist.init refreshFix :=
  ⟨(C9_refresh_ignores_revocation_store refreshDepsFix hFix 0 refreshFix
      TokenBlacklist.init TokenBlacklist.init).2.2
      { sub := some uuidFix, username := none, email := none, is_superuser := none,
        role := none, roles := none, type := some "refresh",
        exp := some 604800, iat := some 0 }
      userFix (by decide) (by decide) rfl,
   (C9_refresh_ignores_revocation_store refreshDepsFix hFix 0 refreshFix
      TokenBlacklist.init TokenBlacklist.init).2.1⟩

/-- C10 counterexample: the refresh token issued for the subject `"zzz"`
is well formed and unexpired at time 60 — it decodes to a payload whose
`sub` is present and non-empty — yet `ValidateTokenUseCase.execute`
reports it invalid, because `UUID("zzz")` raises inside the use case's
try-block; so a decodable payload is not reported invalid *only* when
its `sub` is missing or empty. -/
theorem C10_counterexample :
    hFix.decode_token 60 (hFix.create_refresh_token 0 "zzz") =
      some { sub := some "zzz", username := none, email := none, is_superuser := none,
             role := none, roles := none, type := some "refresh",
             exp := some 604800, iat := some 0 } ∧
    (validate_execute hFix 60 (hFix.create_refresh_token 0 "zzz")).valid = false :=
  ⟨by decide, by decide⟩

/-- C10 (amended): validate does not check the token kind — an unexpired
refresh token whose subject is a valid UUID string validates with
`valid=true`, username and email absent and `is_superuser` defaulting to
false; and a decodable payload is reported invalid only when its `sub`
is missing, empty, or not parseable as a UUID. -/
theorem C10_validate_kind_blind (h : JWTHandler) (iss now : Int) (uid nuid : String)
    (hexp : ¬(iss + h.refresh_token_expire_days * 86400 < now))
    (huuid : pyUUID uid = some nuid) :
    validate_execute h now (h.create_refresh_token iss uid) =
      { valid := true, user_id := some nuid, username := none, email := none,
        is_superuser := some false, message := "Token is valid" } ∧
    (∀ t p, h.decode_token now t = some p → (validate_execute h now t).valid = false →
      p.sub = none ∨ p.sub = some "" ∨ ∃ s, p.sub = some s ∧ pyUUID s = none) := by
  constructor
  · have hne : uid ≠ "" := by
      intro he
      rw [he] at huuid
      exact Option.noConfusion ((by decide : pyUUID "" = none) ▸ huuid)
    simp [validate_execute, JWTHandler.create_refresh_token, JWTHandler.decode_token,
      hexp, Payload.falsy, Payload.empty, hne, huuid]
  · intro t p hdec hval
    simp only [validate_execute, hdec] at hval
    by_cases hf : p.falsy
    · left
      have hp : p = Payload.empty := by simpa [Payload.falsy] using hf
      rw [hp]
      rfl
    · cases hsub : p.sub with
      | none => exact Or.inl rfl
      | some s =>
        by_cases hse : s = ""
        · exact Or.inr (Or.inl (by rw [hse]))
        · cases hpy : pyUUID s with
          | none => exact Or.inr (Or.inr ⟨s, rfl, hpy⟩)
          | some u => simp [hf, hsub, hse, hpy] at hval

/-- C10 witness: the fixture refresh token, whose subject is a canonical
UUID, validates at time 60 with the stated response. -/
theorem C10_witness :
    ¬(0 + hFix.refresh_token_expire_days * 86400 < 60) ∧
    pyUUID uuidFix = some "11111111111111111111111111111111" ∧
    validate_execute hFix 60 (hFix.create_refresh_token 0 uuidFix) =
      { valid := true, user_id := some "11111111111111111111111111111111",
        username := none, email := none, is_superuser := some false,
        message := "Token is valid" } :=
  ⟨by decide, by decide,
   (C10_validate_kind_blind hFix 0 60 uuidFix "11111111111111111111111111111111"
      (by decide) (by decide)).1⟩

end ClinicAuth
